import Mathlib

/-!
Verification of the Kenwood CAT driver `KwdCat.py`.

Python strings are modeled as `List Char`; a value that may be the
Python `None` is an `Option`; a call that may return a value, return
`None`, or raise an exception is a `PyOut`.  Regular-expression checks
(`re.compile(...).match`, with `re.IGNORECASE`) are modeled as boolean
predicates anchored at the start of the text, exactly as `match` is.
The serial transport is modeled by the data a read would deliver:
`some s` means the read returned the text `s`, `none` means the read
raised `SerialException`.
-/

namespace KwdCat

/-- Outcome of a Python call: a returned value, the returned `None`,
or a raised exception. -/
inductive PyOut (α : Type) where
  | val : α → PyOut α
  | pyNone : PyOut α
  | exn : PyOut α
  deriving DecidableEq

/-- Does `pat` occur at the head of the text? -/
def matchesAt : List Char → List Char → Bool
  | [], _ => true
  | _ :: _, [] => false
  | p :: ps, c :: cs => p == c && matchesAt ps cs

/-- Helper for `pyFind`: scan the text left to right. -/
def pyFindAux (pat : List Char) : List Char → Nat → Option Nat
  | [], i => if matchesAt pat [] then some i else none
  | c :: cs, i => if matchesAt pat (c :: cs) then some i else pyFindAux pat cs (i + 1)

/-- Python `hay.find(pat)`: index of the first occurrence, `none` for `-1`. -/
def pyFind (hay pat : List Char) : Option Nat := pyFindAux pat hay 0

/-- Python single-character indexing `l[i]` (callers establish the bound). -/
def chAt (l : List Char) (i : Nat) : Char := l.getD i ' '

/-- Python slice `l[i:j]` (never raises). -/
def slice (l : List Char) (i j : Nat) : List Char := (l.drop i).take (j - i)

/-- The `IF` frame pattern of `ReadCmdIF`:
`re.compile(r"IF[0-9]{11}.{6}[0-9]{17}0", re.IGNORECASE)`, anchored at the
start by `match`; `.` is any character except a newline. -/
def patIF (l : List Char) : Bool :=
  decide (37 ≤ l.length) &&
  (chAt l 0 == 'I' || chAt l 0 == 'i') && (chAt l 1 == 'F' || chAt l 1 == 'f') &&
  (slice l 2 13).all Char.isDigit &&
  (slice l 13 19).all (fun c => c != '\n') &&
  (slice l 19 36).all Char.isDigit &&
  (chAt l 36 == '0')

/-- The `FA`/`FB` frame pattern of `ReadCmdFAFB`:
`re.compile(r"F[AB][0-9]{11}", re.IGNORECASE)`, anchored at the start. -/
def patFAFB (l : List Char) : Bool :=
  decide (13 ≤ l.length) &&
  (chAt l 0 == 'F' || chAt l 0 == 'f') &&
  (chAt l 1 == 'A' || chAt l 1 == 'a' || chAt l 1 == 'B' || chAt l 1 == 'b') &&
  (slice l 2 13).all Char.isDigit

/-- The `XI` frame pattern of `ReadCmdXI`:
`re.compile(r"XI[0-9]{13}00", re.IGNORECASE)`, anchored at the start. -/
def patXI (l : List Char) : Bool :=
  decide (17 ≤ l.length) &&
  (chAt l 0 == 'X' || chAt l 0 == 'x') && (chAt l 1 == 'I' || chAt l 1 == 'i') &&
  (slice l 2 15).all Char.isDigit &&
  (chAt l 15 == '0') && (chAt l 16 == '0')

/-- The pattern of `ReadCmdPC` exactly as written in the source:
`re.compile(r"XI[0-9]{3}", re.IGNORECASE)` — note the `XI` literal. -/
def patPC (l : List Char) : Bool :=
  decide (5 ≤ l.length) &&
  (chAt l 0 == 'X' || chAt l 0 == 'x') && (chAt l 1 == 'I' || chAt l 1 == 'i') &&
  (slice l 2 5).all Char.isDigit

/-- The frequency transform shared by the decoders:
`(d[:5] + '.' + d[5:]).lstrip('0')`. -/
def decFreq (d : List Char) : List Char :=
  List.dropWhile (fun c => c == '0') (d.take 5 ++ '.' :: d.drop 5)

/-- The status decoder `ReadCmdIF`.  Freq field is `cmd[2:12]`; the other
fields are `cmd[19:23]`, `cmd[23]`, `cmd[24]`, `cmd[28]`, `cmd[29]`,
`cmd[30]`, `cmd[32]`. -/
def ReadCmdIF : Option (List Char) → PyOut (List (List Char))
  | none => PyOut.pyNone
  | some cmd =>
    if patIF cmd then
      PyOut.val [decFreq (slice cmd 2 12), slice cmd 19 23, [chAt cmd 23], [chAt cmd 24],
        [chAt cmd 28], [chAt cmd 29], [chAt cmd 30], [chAt cmd 32]]
    else PyOut.pyNone

/-- The VFO-frequency decoder `ReadCmdFAFB`.  Freq field is `cmd[2:12]`. -/
def ReadCmdFAFB : Option (List Char) → PyOut (List Char)
  | none => PyOut.pyNone
  | some cmd => if patFAFB cmd then PyOut.val (decFreq (slice cmd 2 12)) else PyOut.pyNone

/-- The info decoder `ReadCmdXI`.  Fields `cmd[2:12]`, `cmd[13]`, `cmd[14]`. -/
def ReadCmdXI : Option (List Char) → PyOut (List (List Char))
  | none => PyOut.pyNone
  | some cmd =>
    if patXI cmd then PyOut.val [decFreq (slice cmd 2 12), [chAt cmd 13], [chAt cmd 14]]
    else PyOut.pyNone

/-- The power decoder `ReadCmdPC`.  The source has no `cmd is not None`
guard, so `pattern.match(None)` raises `TypeError`; on a string match it
returns `cmd[2:5]`. -/
def ReadCmdPC : Option (List Char) → PyOut (List Char)
  | none => PyOut.exn
  | some cmd => if patPC cmd then PyOut.val (slice cmd 2 5) else PyOut.pyNone

/-- The tuple `modes` of `ConvertMode`. -/
def modesTable : List String :=
  ["", "LSB", "USB", "CW", "FM", "AM", "FSK", "CW-R", "None", "FSK-R"]

/-- The mode lookup `ConvertMode`: `modes[modenr]` when `1 <= modenr <= 9`, else `None`. -/
def ConvertMode (modenr : Int) : Option String :=
  if 1 ≤ modenr ∧ modenr ≤ 9 then some (modesTable.getD modenr.toNat "") else none

/-- The transaction engine `query(request, elen)` with the transport read modeled by `readRes`
(`none`: the read raised `SerialException`).  Returns the call outcome and
whether a read was attempted.  Mirrors the source exactly: a caught read
exception leaves the local `answer` unbound, so the following
`answer.find(request)` raises `UnboundLocalError`; the guard before
`answer[start + elen]` checks `elen < len(answer)` only, so that indexing
raises `IndexError` whenever `start + elen >= len(answer)`. -/
def query (request : List Char) (elen : Nat) (readRes : Option (List Char)) :
    PyOut (List Char) × Bool :=
  if elen ≠ 0 then
    match readRes with
    | none => (PyOut.exn, true)
    | some answer =>
      match pyFind answer request with
      | some start =>
        if elen < answer.length then
          if start + elen < answer.length then
            if chAt answer (start + elen) == ';' then
              (PyOut.val (slice answer start (start + elen)), true)
            else (PyOut.pyNone, true)
          else (PyOut.exn, true)
        else (PyOut.pyNone, true)
      | none => (PyOut.pyNone, true)
  else (PyOut.pyNone, false)

/-- Observable actions of `checkradio`: a `query(cmd, elen)` call and a
`sleep(seconds)` call. -/
inductive Act where
  | doQuery : List Char → Nat → Act
  | doSleep : Nat → Act
  deriving DecidableEq

/-- The request text `'IF'`. -/
def ifReq : List Char := ['I', 'F']

/-- The request text `'PS1'`. -/
def ps1Req : List Char := ['P', 'S', '1']

/-- The test `answer is not None and len(answer) != 0` applied to a query
outcome. -/
def answered : PyOut (List Char) → Bool
  | PyOut.val a => a.length != 0
  | _ => false

/-- Did the call raise? -/
def raised : PyOut (List Char) → Bool
  | PyOut.exn => true
  | _ => false

/-- The liveness check `checkradio` with the two status-query reads modeled by `r1` and `r2`.
Returns the outcome and the trace of query/sleep actions in order. -/
def checkradio (r1 r2 : Option (List Char)) : PyOut Bool × List Act :=
  let o1 := (query ifReq 37 r1).1
  if raised o1 then (PyOut.exn, [Act.doQuery ifReq 37])
  else if answered o1 then (PyOut.val true, [Act.doQuery ifReq 37])
  else
    let o2 := (query ifReq 37 r2).1
    let acts := [Act.doQuery ifReq 37, Act.doQuery ps1Req 0, Act.doSleep 1,
      Act.doQuery ifReq 37]
    if raised o2 then (PyOut.exn, acts)
    else if answered o2 then (PyOut.val true, acts)
    else (PyOut.val false, acts)

/-- The reconstruction of claim C9: remove the decimal dot and left-pad
with `'0'` to the given width. -/
def reconFreq (width : Nat) (s : List Char) : List Char :=
  List.replicate (width - (s.filter (fun c => c != '.')).length) '0' ++
    s.filter (fun c => c != '.')

/-- Decode an 11-digit frequency field the way the code does it: through
`ReadCmdFAFB` on the frame `FA` + digits. -/
def decodeFA (D : List Char) : List Char :=
  match ReadCmdFAFB (some ('F' :: 'A' :: D)) with
  | PyOut.val s => s
  | _ => []

/-! ## Helper lemmas -/

/-- Stripping a character that the predicate rejects stops `dropWhile`
at the boundary. -/
theorem dropWhile_append_cons (p : Char → Bool) (xs : List Char) (y : Char)
    (ys : List Char) (hy : p y = false) :
    List.dropWhile p (xs ++ y :: ys) = List.dropWhile p xs ++ y :: ys := by
  induction xs with
  | nil => simp [List.dropWhile_cons, hy]
  | cons x xs ih =>
    by_cases hx : p x = true
    · simpa [List.dropWhile_cons, hx] using ih
    · simp [List.dropWhile_cons, hx]

/-- A digit character is not the decimal dot. -/
theorem digit_ne_dot (c : Char) (h : c.isDigit = true) : (c != '.') = true := by
  rcases Bool.eq_false_or_eq_true (c == '.') with hc | hc
  · have hc' : c = '.' := by simpa using hc
    subst hc'
    exact absurd h (by decide)
  · simp [bne, hc]

/-- Round trip on the 10-character field the decoders actually slice:
removing the dot from `decFreq d` and left-padding with zeros to width 10
recovers `d`. -/
theorem recon_decFreq (d : List Char) (hd : d.length = 10)
    (hdig : ∀ c ∈ d, c.isDigit = true) : reconFreq 10 (decFreq d) = d := by
  have ha : (d.take 5).length = 5 := by simp [List.length_take, hd]
  have hb : (d.drop 5).length = 5 := by simp [List.length_drop, hd]
  unfold decFreq reconFreq
  rw [dropWhile_append_cons _ _ _ _ (by decide), List.filter_append]
  have hfb : List.filter (fun c => c != '.') ('.' :: d.drop 5) = d.drop 5 := by
    rw [List.filter_cons, if_neg (by decide)]
    exact List.filter_eq_self.mpr fun c hc => digit_ne_dot c (hdig c (List.drop_subset 5 d hc))
  have hfa : List.filter (fun c => c != '.')
      (List.dropWhile (fun c => c == '0') (d.take 5)) =
      List.dropWhile (fun c => c == '0') (d.take 5) :=
    List.filter_eq_self.mpr fun c hc => digit_ne_dot c
      (hdig c (List.take_subset 5 d ((List.dropWhile_sublist _).subset hc)))
  rw [hfa, hfb]
  have htw : List.takeWhile (fun c => c == '0') (d.take 5) =
      List.replicate (List.takeWhile (fun c => c == '0') (d.take 5)).length '0' := by
    refine List.eq_replicate_iff.mpr ⟨rfl, fun b hb => ?_⟩
    simpa using List.mem_takeWhile_imp hb
  have hlen5 : (List.takeWhile (fun c => c == '0') (d.take 5)).length +
      (List.dropWhile (fun c => c == '0') (d.take 5)).length = 5 := by
    rw [← List.length_append, List.takeWhile_append_dropWhile, ha]
  have hw : 10 - (List.dropWhile (fun c => c == '0') (d.take 5) ++ d.drop 5).length =
      (List.takeWhile (fun c => c == '0') (d.take 5)).length := by
    rw [List.length_append, hb]
    omega
  rw [hw, ← List.append_assoc, ← htw, List.takeWhile_append_dropWhile,
    List.take_append_drop]

/-- Slicing inside the left part of an append ignores the right part. -/
theorem slice_append (l r : List Char) (i j : Nat) (h : j ≤ l.length) :
    slice (l ++ r) i j = slice l i j := by
  unfold slice
  rw [List.drop_append_eq_append_drop, List.take_append_eq_append_take]
  have h0 : j - i - (l.drop i).length = 0 := by
    rw [List.length_drop]
    omega
  rw [h0]
  simp

/-- Indexing inside the left part of an append ignores the right part. -/
theorem chAt_append (l r : List Char) (i : Nat) (h : i < l.length) :
    chAt (l ++ r) i = chAt l i :=
  List.getD_append l r ' ' i h

/-- The `IF` pattern only looks at the first 37 characters. -/
theorem patIF_append (u rest : List Char) (hl : u.length = 37) :
    patIF (u ++ rest) = patIF u := by
  unfold patIF
  rw [slice_append u rest 2 13 (by omega), slice_append u rest 13 19 (by omega),
    slice_append u rest 19 36 (by omega), chAt_append u rest 0 (by omega),
    chAt_append u rest 1 (by omega), chAt_append u rest 36 (by omega),
    decide_eq_true (show 37 ≤ (u ++ rest).length by rw [List.length_append]; omega),
    decide_eq_true (show 37 ≤ u.length by omega)]

/-- The `FA`/`FB` pattern only looks at the first 13 characters. -/
theorem patFAFB_append (u rest : List Char) (hl : u.length = 13) :
    patFAFB (u ++ rest) = patFAFB u := by
  unfold patFAFB
  rw [slice_append u rest 2 13 (by omega), chAt_append u rest 0 (by omega),
    chAt_append u rest 1 (by omega),
    decide_eq_true (show 13 ≤ (u ++ rest).length by rw [List.length_append]; omega),
    decide_eq_true (show 13 ≤ u.length by omega)]

/-- The `XI` pattern only looks at the first 17 characters. -/
theorem patXI_append (u rest : List Char) (hl : u.length = 17) :
    patXI (u ++ rest) = patXI u := by
  unfold patXI
  rw [slice_append u rest 2 15 (by omega), chAt_append u rest 0 (by omega),
    chAt_append u rest 1 (by omega), chAt_append u rest 15 (by omega),
    chAt_append u rest 16 (by omega),
    decide_eq_true (show 17 ≤ (u ++ rest).length by rw [List.length_append]; omega),
    decide_eq_true (show 17 ≤ u.length by omega)]

/-- The status decoder gives the same result on a 37-character frame with
trailing garbage as on the frame alone. -/
theorem ReadCmdIF_append (u rest : List Char) (hl : u.length = 37) :
    ReadCmdIF (some (u ++ rest)) = ReadCmdIF (some u) := by
  simp only [ReadCmdIF]
  rw [patIF_append u rest hl]
  by_cases hp : patIF u = true
  · rw [if_pos hp, if_pos hp, slice_append u rest 2 12 (by omega),
      slice_append u rest 19 23 (by omega), chAt_append u rest 23 (by omega),
      chAt_append u rest 24 (by omega), chAt_append u rest 28 (by omega),
      chAt_append u rest 29 (by omega), chAt_append u rest 30 (by omega),
      chAt_append u rest 32 (by omega)]
  · rw [if_neg hp, if_neg hp]

/-- The VFO-frequency decoder gives the same result on a 13-character frame
with trailing garbage as on the frame alone. -/
theorem ReadCmdFAFB_append (u rest : List Char) (hl : u.length = 13) :
    ReadCmdFAFB (some (u ++ rest)) = ReadCmdFAFB (some u) := by
  simp only [ReadCmdFAFB]
  rw [patFAFB_append u rest hl]
  by_cases hp : patFAFB u = true
  · rw [if_pos hp, if_pos hp, slice_append u rest 2 12 (by omega)]
  · rw [if_neg hp, if_neg hp]

/-- The info decoder gives the same result on a 17-character frame with
trailing garbage as on the frame alone. -/
theorem ReadCmdXI_append (u rest : List Char) (hl : u.length = 17) :
    ReadCmdXI (some (u ++ rest)) = ReadCmdXI (some u) := by
  simp only [ReadCmdXI]
  rw [patXI_append u rest hl]
  by_cases hp : patXI u = true
  · rw [if_pos hp, if_pos hp, slice_append u rest 2 12 (by omega),
      chAt_append u rest 13 (by omega), chAt_append u rest 14 (by omega)]
  · rw [if_neg hp, if_neg hp]

/-! ## Claim theorems -/

/-- Claim C1 (refuted, code bug).  The spec says `query` never raises for
`expectedLength > 0`; the code does raise.  With the read raising
`SerialException` (modeled `readRes = none`) the caught exception leaves
`answer` unbound and `answer.find(request)` raises `UnboundLocalError`;
and with the accumulated text `"ab;IFq;"` and `expectedLength = 5` the
request `IF` is found at index 3, the guard `5 < 7` passes, and
`answer[3 + 5]` raises `IndexError`. -/
theorem c1_query_can_raise :
    query ifReq 37 none = (PyOut.exn, true) ∧
    query ifReq 5 (some ("ab;IFq;".data)) = (PyOut.exn, true) := by decide

/-- Claim C2, counterexample.  The code does not decode the reply
`FA00014049680` to the text `14.049680`: it slices only `cmd[2:12]`,
ten of the eleven digits, and yields `14.04968`. -/
theorem c2_eleven_digit_decode_refuted :
    ReadCmdFAFB (some ("FA00014049680".data)) ≠ PyOut.val ("14.049680".data) := by
  decide

/-- Claim C2 as amended: frequency decoding takes the first 10 of the 11
frequency digits (characters 2–11 of the frame), forms first 5 digits,
a dot, the remaining 5 digits, and strips leading zeros; the reply
`FA00014049680` decodes to `14.04968` and the `IF` frame carrying digits
`00014050380` decodes to frequency `14.05038`. -/
theorem c2_freq_decode_drops_last_digit :
    (∀ cmd : List Char, patFAFB cmd = true →
      ReadCmdFAFB (some cmd) = PyOut.val (decFreq (slice cmd 2 12))) ∧
    ReadCmdFAFB (some ("FA00014049680".data)) = PyOut.val ("14.04968".data) ∧
    ReadCmdIF (some ("IF00014050380      040000041020000080".data)) =
      PyOut.val ["14.05038".data, "0400".data, "0".data, "0".data, "0".data,
        "2".data, "0".data, "0".data] :=
  ⟨fun _ h => by simp [ReadCmdFAFB, h], by decide, by decide⟩

/-- Witness for the amended claim C2 at a concrete `FB` frame. -/
theorem c2_freq_decode_drops_last_digit_w :
    patFAFB ("FB00007030500".data) = true ∧
    ReadCmdFAFB (some ("FB00007030500".data)) =
      PyOut.val (decFreq (slice ("FB00007030500".data) 2 12)) :=
  ⟨by decide, c2_freq_decode_drops_last_digit.1 _ (by decide)⟩

/-- Claim C3 (refuted, code bug).  The spec (and the function's own
docstring) say the power decoder validates the literal `PC`; the
source's pattern is `r"XI[0-9]{3}"`, so the power frame `PC050` is
rejected while `XI050` is accepted. -/
theorem c3_power_grammar_uses_xi :
    ReadCmdPC (some ("PC050".data)) = PyOut.pyNone ∧
    ReadCmdPC (some ("XI050".data)) = PyOut.val ("050".data) := by decide

/-- Claim C4 (refuted, code bug).  Three decoders return the undecodable
outcome on `None`, but `ReadCmdPC` has no `None` guard and
`pattern.match(None)` raises `TypeError`. -/
theorem c4_power_decoder_raises_on_none :
    ReadCmdIF none = PyOut.pyNone ∧ ReadCmdFAFB none = PyOut.pyNone ∧
    ReadCmdXI none = PyOut.pyNone ∧ ReadCmdPC (some []) = PyOut.pyNone ∧
    ReadCmdPC none = PyOut.exn := by decide

/-- Claim C5 (confirmed).  When neither status query raises: a non-empty
valid reply to the first `IF` query gives `True` after that single query;
otherwise `checkradio` queries `PS1` fire-and-forget, sleeps 1 second,
repeats the `IF` query exactly once, and returns `True` exactly when the
retry yields a non-empty valid reply. -/
theorem c5_checkradio_single_retry (r1 r2 : Option (List Char))
    (h1 : raised ((query ifReq 37 r1).1) = false)
    (h2 : raised ((query ifReq 37 r2).1) = false) :
    (answered ((query ifReq 37 r1).1) = true →
      checkradio r1 r2 = (PyOut.val true, [Act.doQuery ifReq 37])) ∧
    (answered ((query ifReq 37 r1).1) = false →
      checkradio r1 r2 = (PyOut.val (answered ((query ifReq 37 r2).1)),
        [Act.doQuery ifReq 37, Act.doQuery ps1Req 0, Act.doSleep 1,
          Act.doQuery ifReq 37])) := by
  constructor
  · intro ha
    simp [checkradio, h1, ha]
  · intro ha
    cases hb : answered ((query ifReq 37 r2).1) <;>
      simp [checkradio, h1, h2, ha, hb]

/-- Witness for claim C5: first query reads nothing, retry reads a valid
frame, final state is `Responding`. -/
theorem c5_checkradio_single_retry_w :
    checkradio (some []) (some ("IF00014050380      040000041020000080;".data)) =
      (PyOut.val (answered ((query ifReq 37
          (some ("IF00014050380      040000041020000080;".data))).1)),
        [Act.doQuery ifReq 37, Act.doQuery ps1Req 0, Act.doSleep 1,
          Act.doQuery ifReq 37]) :=
  (c5_checkradio_single_retry (some []) _ (by decide) (by decide)).2 (by decide)

/-- Claim C6 (confirmed).  With `expectedLength = 0`, `query` returns
(Python `None`) right after the write and never attempts a read, whatever
the request and whatever a read would have delivered. -/
theorem c6_query_zero_no_read (request : List Char) (readRes : Option (List Char)) :
    query request 0 readRes = (PyOut.pyNone, false) := by
  simp [query]

/-- Claim C7 (confirmed).  On any text matching the status-frame grammar
the decoder returns exactly the 8 fields: the decoded frequency from
characters 2–11 and the literal substrings at positions 19–23, 23, 24,
28, 29, 30 and 32. -/
theorem c7_status_frame_fields (cmd : List Char) (h : patIF cmd = true) :
    ReadCmdIF (some cmd) = PyOut.val [decFreq (slice cmd 2 12), slice cmd 19 23,
      [chAt cmd 23], [chAt cmd 24], [chAt cmd 28], [chAt cmd 29], [chAt cmd 30],
      [chAt cmd 32]] := by
  simp [ReadCmdIF, h]

/-- Witness for claim C7 at the spec's example frame. -/
theorem c7_status_frame_fields_w :
    patIF ("IF00014050380      040000041020000080".data) = true ∧
    ReadCmdIF (some ("IF00014050380      040000041020000080".data)) =
      PyOut.val [decFreq (slice ("IF00014050380      040000041020000080".data) 2 12),
        slice ("IF00014050380      040000041020000080".data) 19 23,
        [chAt ("IF00014050380      040000041020000080".data) 23],
        [chAt ("IF00014050380      040000041020000080".data) 24],
        [chAt ("IF00014050380      040000041020000080".data) 28],
        [chAt ("IF00014050380      040000041020000080".data) 29],
        [chAt ("IF00014050380      040000041020000080".data) 30],
        [chAt ("IF00014050380      040000041020000080".data) 32]] :=
  ⟨by decide, c7_status_frame_fields _ (by decide)⟩

/-- Claim C8 (confirmed).  For `1 <= k <= 9`, `ConvertMode` returns the
table entry at index `k`; for any other `k` (including 0) it returns the
invalid outcome `none`. -/
theorem c8_convert_mode_table (k : Int) :
    (1 ≤ k → k ≤ 9 → ConvertMode k = modesTable.get? k.toNat) ∧
    (k < 1 ∨ 9 < k → ConvertMode k = none) := by
  constructor
  · intro h1 h2
    interval_cases k <;> decide
  · intro h
    have hn : ¬ (1 ≤ k ∧ k ≤ 9) := by omega
    simp [ConvertMode, hn]

/-- Witness for claim C8 at `k = 3` and `k = 0`. -/
theorem c8_convert_mode_table_w :
    ConvertMode 3 = modesTable.get? ((3 : Int)).toNat ∧ ConvertMode 0 = none :=
  ⟨(c8_convert_mode_table 3).1 (by decide) (by decide),
   (c8_convert_mode_table 0).2 (by decide)⟩

/-- Claim C9, counterexample.  The digit string `00014049680` has length
11 and is all digits, yet decoding it (through the code's own decoder)
and re-padding to 11 digits does not recover it: the 11th digit is
dropped by the `cmd[2:12]` slice. -/
theorem c9_roundtrip_eleven_refuted :
    ("00014049680".data).length = 11 ∧
    (∀ c ∈ "00014049680".data, c.isDigit = true) ∧
    reconFreq 11 (decodeFA ("00014049680".data)) ≠ "00014049680".data := by decide

/-- Claim C9 as amended: for every 11-digit string `D`, decoding (which
uses only the first 10 digits) and then reconstructing — removing the dot
and re-padding with leading zeros to 10 digits — recovers exactly the
first 10 digits of `D`. -/
theorem c9_roundtrip_first_ten (D : List Char) (hlen : D.length = 11)
    (hdig : ∀ c ∈ D, c.isDigit = true) :
    reconFreq 10 (decodeFA D) = D.take 10 := by
  have hsl : slice ('F' :: 'A' :: D) 2 13 = D.take 11 := rfl
  have ht11 : D.take 11 = D := by rw [← hlen, List.take_length]
  have hpat : patFAFB ('F' :: 'A' :: D) = true := by
    unfold patFAFB
    rw [hsl, ht11,
      decide_eq_true (show 13 ≤ ('F' :: 'A' :: D).length by simp [hlen])]
    simp [chAt, List.all_eq_true.mpr hdig]
  have hread : decodeFA D = decFreq (D.take 10) := by
    unfold decodeFA
    simp [ReadCmdFAFB, hpat]
    rfl
  rw [hread]
  have hd10 : (D.take 10).length = 10 := by simp [List.length_take, hlen]
  exact recon_decFreq (D.take 10) hd10 fun c hc => hdig c (List.take_subset 10 D hc)

/-- Witness for the amended claim C9 at the spec's digit string. -/
theorem c9_roundtrip_first_ten_w :
    reconFreq 10 (decodeFA ("00014049680".data)) = ("00014049680".data).take 10 :=
  c9_roundtrip_first_ten _ (by decide) (by decide)

/-- Claim C10 (confirmed).  The status, VFO-frequency and info grammars
are anchored only at the start: on a full frame followed by arbitrary
extra characters each decoder succeeds and extracts exactly the fields it
extracts on the frame alone. -/
theorem c10_decoders_anchored_at_start (u v w r1 r2 r3 : List Char) :
    (patIF u = true → u.length = 37 →
      ReadCmdIF (some (u ++ r1)) = ReadCmdIF (some u) ∧
      ∃ fields, ReadCmdIF (some (u ++ r1)) = PyOut.val fields) ∧
    (patFAFB v = true → v.length = 13 →
      ReadCmdFAFB (some (v ++ r2)) = ReadCmdFAFB (some v) ∧
      ∃ freq, ReadCmdFAFB (some (v ++ r2)) = PyOut.val freq) ∧
    (patXI w = true → w.length = 17 →
      ReadCmdXI (some (w ++ r3)) = ReadCmdXI (some w) ∧
      ∃ fields, ReadCmdXI (some (w ++ r3)) = PyOut.val fields) := by
  refine ⟨fun hp hl => ⟨ReadCmdIF_append u r1 hl, ?_⟩,
    fun hp hl => ⟨ReadCmdFAFB_append v r2 hl, ?_⟩,
    fun hp hl => ⟨ReadCmdXI_append w r3 hl, ?_⟩⟩
  · refine ⟨[decFreq (slice u 2 12), slice u 19 23, [chAt u 23], [chAt u 24],
      [chAt u 28], [chAt u 29], [chAt u 30], [chAt u 32]], ?_⟩
    rw [ReadCmdIF_append u r1 hl]
    simp [ReadCmdIF, hp]
  · refine ⟨decFreq (slice v 2 12), ?_⟩
    rw [ReadCmdFAFB_append v r2 hl]
    simp [ReadCmdFAFB, hp]
  · refine ⟨[decFreq (slice w 2 12), [chAt w 13], [chAt w 14]], ?_⟩
    rw [ReadCmdXI_append w r3 hl]
    simp [ReadCmdXI, hp]

/-- Witness for claim C10: each decoder accepts its frame with `;extra`
appended and returns the same fields as on the frame alone. -/
theorem c10_decoders_anchored_at_start_w :
    ReadCmdIF (some (("IF00014050380      040000041020000080".data) ++ (";OK".data))) =
      ReadCmdIF (some ("IF00014050380      040000041020000080".data)) ∧
    ReadCmdFAFB (some (("FA00014049680".data) ++ (";OK".data))) =
      ReadCmdFAFB (some ("FA00014049680".data)) ∧
    ReadCmdXI (some (("XI000140496802000".data) ++ (";OK".data))) =
      ReadCmdXI (some ("XI000140496802000".data)) :=
  ⟨((c10_decoders_anchored_at_start ("IF00014050380      040000041020000080".data)
      ("FA00014049680".data) ("XI000140496802000".data) (";OK".data) (";OK".data)
      (";OK".data)).1 (by decide) (by decide)).1,
   ((c10_decoders_anchored_at_start ("IF00014050380      040000041020000080".data)
      ("FA00014049680".data) ("XI000140496802000".data) (";OK".data) (";OK".data)
      (";OK".data)).2.1 (by decide) (by decide)).1,
   ((c10_decoders_anchored_at_start ("IF00014050380      040000041020000080".data)
      ("FA00014049680".data) ("XI000140496802000".data) (";OK".data) (";OK".data)
      (";OK".data)).2.2 (by decide) (by decide)).1⟩

end KwdCat
